import Mathlib

/-
Verification of the task-management backend (FastAPI CRUD service).

Shallow embedding of:
  - src/backend/app/schemas.py : pydantic request models TaskCreate, TaskUpdate, TaskOut
  - src/backend/app/main.py    : the five HTTP endpoint handlers

The Task ORM model and the database session (app/models.py, app/database.py)
are not part of the provided sources; the durable store is therefore modelled
from the spec (section 3 "DATA MODEL" and section 6 "Persisted state"):
one table of rows (id, title, completed) with a system-generated,
auto-incrementing integer primary key.
-/

set_option autoImplicit false

namespace TaskApi

/-- JSON-like value appearing in a request body field. -/
inductive JValue where
  | str : String → JValue
  | bool : Bool → JValue
  | num : Int → JValue
deriving DecidableEq, Repr

/-- Request body: a finite map from field names to JSON values,
represented as an association list (first binding wins, as in JSON decoding). -/
def Body : Type := List (String × JValue)

/-- Persisted Task row: columns id (primary key), title, completed
(spec section 6: "one table holding Task rows with columns id, title, completed"). -/
structure Task where
  id : Nat
  title : String
  completed : Bool
deriving DecidableEq, Repr

/-- Response model TaskOut from src/backend/app/schemas.py: id, title, completed. -/
structure TaskOut where
  id : Nat
  title : String
  completed : Bool
deriving DecidableEq, Repr

/-- Serialization of a stored row through response_model=TaskOut (from_attributes). -/
def Task.toOut (t : Task) : TaskOut := ⟨t.id, t.title, t.completed⟩

/-- Request model TaskCreate from src/backend/app/schemas.py:
title : str (required), completed : bool = False. -/
structure TaskCreate where
  title : String
  completed : Bool
deriving DecidableEq, Repr

/-- Request model TaskUpdate from src/backend/app/schemas.py:
title : str (required), completed : bool (required). -/
structure TaskUpdate where
  title : String
  completed : Bool
deriving DecidableEq, Repr

/-- Pydantic validation of a request body against TaskCreate:
`title` must be present and a string; `completed` defaults to false when
absent and must be a boolean when present; unknown fields are ignored
(pydantic BaseModel default extra-handling). -/
def TaskCreate.validate (b : Body) : Option TaskCreate :=
  match b.lookup "title" with
  | some (JValue.str t) =>
    match b.lookup "completed" with
    | some (JValue.bool c) => some ⟨t, c⟩
    | some _ => none
    | none => some ⟨t, false⟩
  | _ => none

/-- Pydantic validation of a request body against TaskUpdate:
both `title` (string) and `completed` (boolean) are required;
unknown fields are ignored. -/
def TaskUpdate.validate (b : Body) : Option TaskUpdate :=
  match b.lookup "title", b.lookup "completed" with
  | some (JValue.str t), some (JValue.bool c) => some ⟨t, c⟩
  | _, _ => none

/-- Modelled from the spec: the Task Store (app/models.py and app/database.py
are not in the provided sources). Rows in storage order together with the next
auto-increment primary-key value. -/
structure Store where
  rows : List Task
  nextId : Nat
deriving DecidableEq, Repr

/-- Modelled from the spec: a fresh store with no rows; SQL auto-increment
ids start at 1 (spec section 8 scenario: first created task has id 1). -/
def emptyStore : Store := ⟨[], 1⟩

/-- Store well-formedness: every stored id was generated before `nextId`,
and ids are unique (primary-key property, spec section 3 invariants). -/
def Store.Wf (s : Store) : Prop :=
  (∀ t ∈ s.rows, t.id < s.nextId) ∧ (s.rows.map Task.id).Nodup

instance (s : Store) : Decidable s.Wf := by
  unfold Store.Wf
  infer_instance

/-- Modelled from the spec: SELECT ... WHERE id = task_id, scalar_one_or_none.
Under the primary-key invariant at most one row matches. -/
def Store.get (s : Store) (task_id : Nat) : Option Task :=
  s.rows.find? (fun t => t.id == task_id)

/-- HTTP-level outcome of a handler: a 200 body, or an HTTPException
(status code and detail string). -/
inductive Resp (α : Type) where
  | ok : α → Resp α
  | err : Nat → String → Resp α
deriving DecidableEq, Repr

/-- Handler for POST /tasks/ (src/backend/app/main.py, create_task):
insert a new row built from the validated body, commit, refresh, return it. -/
def create_task (task : TaskCreate) (db : Store) : TaskOut × Store :=
  let db_task : Task := ⟨db.nextId, task.title, task.completed⟩
  (db_task.toOut, ⟨db.rows ++ [db_task], db.nextId + 1⟩)

/-- Handler for GET /tasks/ (src/backend/app/main.py, read_tasks):
select all rows, return them in storage order. -/
def read_tasks (db : Store) : List TaskOut :=
  db.rows.map Task.toOut

/-- Handler for GET /tasks/{task_id} (src/backend/app/main.py, read_task):
select the row; 404 "Task not found" when absent. -/
def read_task (task_id : Nat) (db : Store) : Resp TaskOut :=
  match db.get task_id with
  | none => Resp.err 404 "Task not found"
  | some task => Resp.ok task.toOut

/-- Handler for PUT /tasks/{task_id} (src/backend/app/main.py, update_task):
select the row; 404 when absent; otherwise overwrite title and completed
in place, commit, refresh, return the updated row. -/
def update_task (task_id : Nat) (task : TaskUpdate) (db : Store) :
    Resp TaskOut × Store :=
  match db.get task_id with
  | none => (Resp.err 404 "Task not found", db)
  | some db_task =>
    let updated : Task := ⟨db_task.id, task.title, task.completed⟩
    (Resp.ok updated.toOut,
     ⟨db.rows.map (fun t => if t.id == task_id then updated else t), db.nextId⟩)

/-- Handler for DELETE /tasks/{task_id} (src/backend/app/main.py, delete_task):
select the row; 404 when absent; otherwise delete it, commit, and return the
row's last state before removal. -/
def delete_task (task_id : Nat) (db : Store) : Resp TaskOut × Store :=
  match db.get task_id with
  | none => (Resp.err 404 "Task not found", db)
  | some db_task =>
    (Resp.ok db_task.toOut,
     ⟨db.rows.filter (fun t => t.id != task_id), db.nextId⟩)

/-- A single quote character (used in the suggestion prompt template). -/
def squote : String := String.singleton (Char.ofNat 39)

/-- Prompt template of POST /suggestions/ (src/backend/app/main.py,
suggest_task_completion): the title is embedded verbatim between quotes. -/
def suggestPrompt (title : String) : String :=
  "Just answer only steps for this task short: " ++ squote ++ title ++ squote ++ "?"

/-- Handler for POST /suggestions/ (src/backend/app/main.py,
suggest_task_completion). The external chat call is an oracle parameter
`chat` returning either the reply text or a failure description; on failure
the handler raises HTTPException 500 with detail "Ollama error: " ++ str(e).
The handler takes no database dependency; the store passes through unchanged. -/
def suggest_task_completion (chat : String → Except String String)
    (title : String) (db : Store) : Resp String × Store :=
  let prompt := suggestPrompt title
  match chat prompt with
  | Except.ok content => (Resp.ok content, db)
  | Except.error e => (Resp.err 500 ("Ollama error: " ++ e), db)

/-- Iterated creation: fold create_task over a list of validated bodies. -/
def createMany (tcs : List TaskCreate) (db : Store) : Store :=
  tcs.foldl (fun s tc => (create_task tc s).2) db

/-- An always-failing external chat oracle (unreachable model server). -/
def chatDown : String → Except String String :=
  fun _ => Except.error "connection refused"

/-- Helper: find? over an appended element when nothing earlier matches. -/
lemma find_append_of_none (l : List Task) (a : Task) (p : Task → Bool)
    (h : ∀ t ∈ l, p t = false) (ha : p a = true) :
    (l ++ [a]).find? p = some a := by
  induction l with
  | nil => simp [List.find?, ha]
  | cons x xs ih =>
    have hx : p x = false := h x (List.mem_cons_self x xs)
    rw [List.cons_append, List.find?_cons_of_neg _ (by simp [hx])]
    exact ih (fun t ht => h t (List.mem_cons_of_mem x ht))

/-- C1: for every well-formed store, a GET on the id returned by a create
immediately after that create succeeds with status 200 and returns a Task
equal in all fields (id, title, completed) to the one the create returned. -/
theorem C1_get_after_create (s : Store) (tc : TaskCreate) (hw : s.Wf) :
    read_task (create_task tc s).1.id (create_task tc s).2 =
      Resp.ok (create_task tc s).1 := by
  have hfind : ((s.rows ++ [(⟨s.nextId, tc.title, tc.completed⟩ : Task)]).find?
      (fun t => t.id == s.nextId)) = some ⟨s.nextId, tc.title, tc.completed⟩ := by
    refine find_append_of_none _ _ _ (fun t ht => ?_) (by simp)
    have hlt := hw.1 t ht
    simp [Nat.ne_of_lt hlt]
  simp only [create_task, read_task, Store.get, Task.toOut]
  rw [hfind]

/-- C1 witness: concrete instance on the empty store. -/
theorem C1_get_after_create_witness :
    emptyStore.Wf ∧
    read_task (create_task ⟨"Buy milk", false⟩ emptyStore).1.id
        (create_task ⟨"Buy milk", false⟩ emptyStore).2 =
      Resp.ok (create_task ⟨"Buy milk", false⟩ emptyStore).1 :=
  ⟨by decide, C1_get_after_create emptyStore ⟨"Buy milk", false⟩ (by decide)⟩

/-- C5: for an id that resolves to no stored row, GET, PUT and DELETE all
respond 404 with the fixed message "Task not found", and PUT and DELETE
leave the store unchanged. -/
theorem C5_absent_is_404 (s : Store) (task_id : Nat) (tu : TaskUpdate)
    (h : s.get task_id = none) :
    read_task task_id s = Resp.err 404 "Task not found" ∧
    update_task task_id tu s = (Resp.err 404 "Task not found", s) ∧
    delete_task task_id s = (Resp.err 404 "Task not found", s) := by
  refine ⟨?_, ?_, ?_⟩ <;> simp [read_task, update_task, delete_task, h]

/-- C5 witness: id 5 on the empty store. -/
theorem C5_absent_is_404_witness :
    emptyStore.get 5 = none ∧
    read_task 5 emptyStore = Resp.err 404 "Task not found" ∧
    update_task 5 ⟨"x", true⟩ emptyStore = (Resp.err 404 "Task not found", emptyStore) ∧
    delete_task 5 emptyStore = (Resp.err 404 "Task not found", emptyStore) :=
  ⟨rfl, C5_absent_is_404 emptyStore 5 ⟨"x", true⟩ rfl⟩

/-- C6: a create body with a title and no completed field validates to a
TaskCreate with completed = false, and the created Task carries the
system-generated id (the store's next primary-key value), the given title,
and completed = false. -/
theorem C6_default_completed (b : Body) (ti : String) (s : Store)
    (h1 : b.lookup "title" = some (JValue.str ti))
    (h2 : b.lookup "completed" = none) :
    TaskCreate.validate b = some ⟨ti, false⟩ ∧
    (create_task ⟨ti, false⟩ s).1 = ⟨s.nextId, ti, false⟩ := by
  exact ⟨by simp [TaskCreate.validate, h1, h2], rfl⟩

/-- C6 witness: creating with title "Buy milk" on the empty store yields
id 1, title "Buy milk", completed false. -/
theorem C6_default_completed_witness :
    ([("title", JValue.str "Buy milk")] : Body).lookup "title" =
        some (JValue.str "Buy milk") ∧
    ([("title", JValue.str "Buy milk")] : Body).lookup "completed" = none ∧
    (TaskCreate.validate [("title", JValue.str "Buy milk")] =
        some ⟨"Buy milk", false⟩ ∧
      (create_task ⟨"Buy milk", false⟩ emptyStore).1 = ⟨1, "Buy milk", false⟩) :=
  ⟨by decide, by decide,
   C6_default_completed [("title", JValue.str "Buy milk")] "Buy milk" emptyStore
     (by decide) (by decide)⟩

/-- Helper: an accepted TaskCreate body has a string title field equal to
the validated title, and completed comes from the body or defaults to false. -/
lemma validate_create_eq (b : Body) (tc : TaskCreate)
    (h : TaskCreate.validate b = some tc) :
    b.lookup "title" = some (JValue.str tc.title) ∧
    (b.lookup "completed" = some (JValue.bool tc.completed) ∨
      (b.lookup "completed" = none ∧ tc.completed = false)) := by
  cases ht : b.lookup "title" with
  | none => simp [TaskCreate.validate, ht] at h
  | some v =>
    cases v with
    | str t =>
      cases hc : b.lookup "completed" with
      | none =>
        simp only [TaskCreate.validate, ht, hc] at h
        have he := Option.some.inj h
        subst he
        exact ⟨rfl, Or.inr ⟨rfl, rfl⟩⟩
      | some w =>
        cases w with
        | str x => simp [TaskCreate.validate, ht, hc] at h
        | bool c =>
          simp only [TaskCreate.validate, ht, hc] at h
          have he := Option.some.inj h
          subst he
          exact ⟨rfl, Or.inl rfl⟩
        | num n => simp [TaskCreate.validate, ht, hc] at h
    | bool c => simp [TaskCreate.validate, ht] at h
    | num n => simp [TaskCreate.validate, ht] at h

/-- Helper: an accepted TaskUpdate body has a string title field equal to
the validated title and a boolean completed field. -/
lemma validate_update_eq (b : Body) (tu : TaskUpdate)
    (h : TaskUpdate.validate b = some tu) :
    b.lookup "title" = some (JValue.str tu.title) ∧
    b.lookup "completed" = some (JValue.bool tu.completed) := by
  cases ht : b.lookup "title" with
  | none => simp [TaskUpdate.validate, ht] at h
  | some v =>
    cases hc : b.lookup "completed" with
    | none => simp [TaskUpdate.validate, ht, hc] at h
    | some w =>
      cases v with
      | str t =>
        cases w with
        | str x => simp [TaskUpdate.validate, ht, hc] at h
        | bool c =>
          simp only [TaskUpdate.validate, ht, hc] at h
          have he := Option.some.inj h
          subst he
          exact ⟨rfl, rfl⟩
        | num n => simp [TaskUpdate.validate, ht, hc] at h
      | bool c => simp [TaskUpdate.validate, ht, hc] at h
      | num n => simp [TaskUpdate.validate, ht, hc] at h

/-- C2 counterexample: validation accepts a body whose title is the empty
string, for create as well as for update, and the created row then stores
and returns the empty title — validation does not reject empty titles. -/
theorem C2_empty_title_accepted :
    TaskCreate.validate [("title", JValue.str "")] = some ⟨"", false⟩ ∧
    TaskUpdate.validate
        [("title", JValue.str ""), ("completed", JValue.bool true)] =
      some ⟨"", true⟩ ∧
    (create_task ⟨"", false⟩ emptyStore).1.title = "" :=
  ⟨rfl, rfl, rfl⟩

/-- C2 amended: every accepted body carries a title field holding a string
(so a persisted title is never null/absent), and the title stored and
returned equals that string exactly — but the string may be empty, since
validation imposes no non-emptiness constraint. -/
theorem C2_title_never_null (b : Body) :
    (∀ tc, TaskCreate.validate b = some tc →
      b.lookup "title" = some (JValue.str tc.title) ∧
      ∀ s : Store, (create_task tc s).1.title = tc.title) ∧
    (∀ tu, TaskUpdate.validate b = some tu →
      b.lookup "title" = some (JValue.str tu.title)) := by
  constructor
  · intro tc h
    exact ⟨(validate_create_eq b tc h).1, fun s => rfl⟩
  · intro tu h
    exact (validate_update_eq b tu h).1

/-- C2 amended witness: concrete accepted bodies for create and update. -/
theorem C2_title_never_null_witness :
    (TaskCreate.validate [("title", JValue.str "Buy milk")] =
        some ⟨"Buy milk", false⟩ ∧
      ([("title", JValue.str "Buy milk")] : Body).lookup "title" =
        some (JValue.str "Buy milk") ∧
      (create_task ⟨"Buy milk", false⟩ emptyStore).1.title = "Buy milk") ∧
    (TaskUpdate.validate
        [("title", JValue.str "x"), ("completed", JValue.bool true)] =
        some ⟨"x", true⟩ ∧
      ([("title", JValue.str "x"), ("completed", JValue.bool true)] : Body).lookup
          "title" = some (JValue.str "x")) := by
  have h := C2_title_never_null [("title", JValue.str "Buy milk")]
  have h2 := C2_title_never_null
    [("title", JValue.str "x"), ("completed", JValue.bool true)]
  have ha := h.1 ⟨"Buy milk", false⟩ (by decide)
  have hb := h2.2 ⟨"x", true⟩ (by decide)
  exact ⟨⟨by decide, ha.1, ha.2 emptyStore⟩, ⟨by decide, hb⟩⟩

/-- C3: DELETE on an existing row responds 200 with the row's last state
before removal, and a subsequent GET on that id returns 404 "Task not
found"; DELETE on an absent id responds 404 with the store unchanged. -/
theorem C3_delete_removes_row (s : Store) (task_id : Nat) :
    (∀ t0, s.get task_id = some t0 →
      (delete_task task_id s).1 = Resp.ok t0.toOut ∧
      read_task task_id (delete_task task_id s).2 =
        Resp.err 404 "Task not found") ∧
    (s.get task_id = none →
      delete_task task_id s = (Resp.err 404 "Task not found", s)) := by
  constructor
  · intro t0 h
    constructor
    · simp [delete_task, h]
    · have hnone : ((s.rows.filter (fun t => t.id != task_id)).find?
          (fun t => t.id == task_id)) = none := by
        rw [List.find?_eq_none]
        intro t ht
        have hmem := List.of_mem_filter ht
        simp at hmem ⊢
        exact hmem
      have hget2 : (delete_task task_id s).2.get task_id = none := by
        unfold delete_task
        rw [h]
        exact hnone
      unfold read_task
      rw [hget2]
  · intro h
    simp [delete_task, h]

/-- C3 witness: delete id 1 from a one-row store, and delete from empty. -/
theorem C3_delete_removes_row_witness :
    ((⟨[⟨1, "A", false⟩], 2⟩ : Store).get 1 = some ⟨1, "A", false⟩ ∧
      (delete_task 1 ⟨[⟨1, "A", false⟩], 2⟩).1 =
        Resp.ok (Task.toOut ⟨1, "A", false⟩) ∧
      read_task 1 (delete_task 1 (⟨[⟨1, "A", false⟩], 2⟩ : Store)).2 =
        Resp.err 404 "Task not found") ∧
    (emptyStore.get 2 = none ∧
      delete_task 2 emptyStore = (Resp.err 404 "Task not found", emptyStore)) :=
  ⟨⟨by decide,
    (C3_delete_removes_row ⟨[⟨1, "A", false⟩], 2⟩ 1).1 ⟨1, "A", false⟩ (by decide)⟩,
   ⟨by decide, (C3_delete_removes_row emptyStore 2).2 (by decide)⟩⟩

/-- Helper: find? on a cons whose head satisfies the predicate. -/
lemma find_cons_pos (q : Task → Bool) (a : Task) (l : List Task)
    (h : q a = true) : (a :: l).find? q = some a := by
  simp only [List.find?_cons, h]

/-- Helper: find? on a cons whose head fails the predicate. -/
lemma find_cons_neg (q : Task → Bool) (a : Task) (l : List Task)
    (h : q a = false) : (a :: l).find? q = l.find? q := by
  simp only [List.find?_cons, h]

/-- Helper: find? after an id-preserving pointwise replacement selects the
replacement exactly when something was found before. -/
lemma find_map_update (l : List Task) (task_id : Nat) (upd : Task)
    (hid : upd.id = task_id) :
    ((l.map (fun t => if t.id == task_id then upd else t)).find?
        (fun t => t.id == task_id)) =
      (l.find? (fun t => t.id == task_id)).map (fun _ => upd) := by
  induction l with
  | nil => rfl
  | cons x xs ih =>
    by_cases hx : (x.id == task_id) = true
    · have hup : (upd.id == task_id) = true := by simp [hid]
      rw [List.map_cons, if_pos hx,
        find_cons_pos (fun t => t.id == task_id) _ _ hup,
        find_cons_pos (fun t => t.id == task_id) _ _ hx]
      rfl
    · have hx' : (x.id == task_id) = false := Bool.eq_false_iff.mpr hx
      rw [List.map_cons, if_neg hx,
        find_cons_neg (fun t => t.id == task_id) _ _ hx',
        find_cons_neg (fun t => t.id == task_id) _ _ hx', ih]

/-- C4: PUT on an existing row keeps the row's id, responds 200 with the new
title and completed, and a subsequent GET on that id returns exactly the
updated values. -/
theorem C4_update_in_place (s : Store) (task_id : Nat) (tu : TaskUpdate)
    (t0 : Task) (h : s.get task_id = some t0) :
    t0.id = task_id ∧
    (update_task task_id tu s).1 = Resp.ok ⟨task_id, tu.title, tu.completed⟩ ∧
    read_task task_id (update_task task_id tu s).2 =
      Resp.ok ⟨task_id, tu.title, tu.completed⟩ := by
  have hid : t0.id = task_id := by
    have hp := List.find?_some h
    simpa using hp
  refine ⟨hid, ?_, ?_⟩
  · unfold update_task
    rw [h]
    simp [Task.toOut, hid]
  · have h' : s.rows.find? (fun t => t.id == task_id) = some t0 := h
    have hfind := find_map_update s.rows task_id
      ⟨t0.id, tu.title, tu.completed⟩ hid
    rw [h'] at hfind
    have hget : (update_task task_id tu s).2.get task_id =
        some ⟨t0.id, tu.title, tu.completed⟩ := by
      unfold update_task
      rw [h]
      exact hfind
    unfold read_task
    rw [hget]
    simp [Task.toOut, hid]

/-- C4 witness: update the one row of a one-row store to title "x",
completed true. -/
theorem C4_update_in_place_witness :
    (⟨[⟨1, "A", false⟩], 2⟩ : Store).get 1 = some ⟨1, "A", false⟩ ∧
    (Task.id ⟨1, "A", false⟩ = 1 ∧
      (update_task 1 ⟨"x", true⟩ ⟨[⟨1, "A", false⟩], 2⟩).1 =
        Resp.ok ⟨1, "x", true⟩ ∧
      read_task 1 (update_task 1 ⟨"x", true⟩ (⟨[⟨1, "A", false⟩], 2⟩ : Store)).2 =
        Resp.ok ⟨1, "x", true⟩) :=
  ⟨by decide,
   C4_update_in_place ⟨[⟨1, "A", false⟩], 2⟩ 1 ⟨"x", true⟩ ⟨1, "A", false⟩ (by decide)⟩

/-- Helper: filter on a cons whose head satisfies the predicate. -/
lemma filter_cons_pos (q : Task → Bool) (a : Task) (l : List Task)
    (h : q a = true) : (a :: l).filter q = a :: l.filter q := by
  simp [List.filter_cons, h]

/-- Helper: filter on a cons whose head fails the predicate. -/
lemma filter_cons_neg (q : Task → Bool) (a : Task) (l : List Task)
    (h : q a = false) : (a :: l).filter q = l.filter q := by
  simp [List.filter_cons, h]

/-- Helper: filtering twice with the same predicate filters once. -/
lemma filter_idem (q : Task → Bool) (l : List Task) :
    (l.filter q).filter q = l.filter q := by
  induction l with
  | nil => rfl
  | cons x xs ih =>
    by_cases hx : q x = true
    · rw [filter_cons_pos q x xs hx, filter_cons_pos q x _ hx, ih]
    · have hx' : q x = false := Bool.eq_false_iff.mpr hx
      rw [filter_cons_neg q x xs hx', ih]

/-- Helper: rows whose id differs from the updated id are untouched by the
pointwise replacement performed by update. -/
lemma filter_map_update (l : List Task) (task_id : Nat) (upd : Task)
    (hid : upd.id = task_id) :
    ((l.map (fun t => if t.id == task_id then upd else t)).filter
        (fun t => t.id != task_id)) =
      l.filter (fun t => t.id != task_id) := by
  induction l with
  | nil => rfl
  | cons x xs ih =>
    by_cases hx : (x.id == task_id) = true
    · have hup : (upd.id != task_id) = false := by simp [hid]
      have hxf : (x.id != task_id) = false := by
        simp only [bne]
        rw [hx]
        rfl
      rw [List.map_cons, if_pos hx,
        filter_cons_neg (fun t => t.id != task_id) _ _ hup,
        filter_cons_neg (fun t => t.id != task_id) _ _ hxf, ih]
    · have hx' : (x.id == task_id) = false := Bool.eq_false_iff.mpr hx
      have hxt : (x.id != task_id) = true := by
        simp only [bne]
        rw [hx']
        rfl
      rw [List.map_cons, if_neg hx,
        filter_cons_pos (fun t => t.id != task_id) _ _ hxt,
        filter_cons_pos (fun t => t.id != task_id) _ _ hxt, ih]

/-- C9: update and delete touch at most the single row matching the given
id: the sub-sequence of rows with any other id is exactly as before (same
rows, same order, same fields), on both the found and not-found paths. -/
theorem C9_other_rows_unchanged (s : Store) (task_id : Nat) (tu : TaskUpdate) :
    ((update_task task_id tu s).2.rows.filter (fun t => t.id != task_id)) =
      s.rows.filter (fun t => t.id != task_id) ∧
    ((delete_task task_id s).2.rows.filter (fun t => t.id != task_id)) =
      s.rows.filter (fun t => t.id != task_id) := by
  constructor
  · cases h : s.get task_id with
    | none =>
      unfold update_task
      rw [h]
    | some t0 =>
      have hid : t0.id = task_id := by simpa using List.find?_some h
      unfold update_task
      rw [h]
      exact filter_map_update s.rows task_id ⟨t0.id, tu.title, tu.completed⟩ hid
  · cases h : s.get task_id with
    | none =>
      unfold delete_task
      rw [h]
    | some t0 =>
      unfold delete_task
      rw [h]
      exact filter_idem (fun t => t.id != task_id) s.rows

/-- Helper: unfolding one create step of createMany. -/
lemma createMany_cons (tc : TaskCreate) (tcs : List TaskCreate) (s : Store) :
    createMany (tc :: tcs) s = createMany tcs (create_task tc s).2 := rfl

/-- Helper: creating N tasks adds exactly N rows. -/
lemma createMany_rows_length (tcs : List TaskCreate) (s : Store) :
    (createMany tcs s).rows.length = s.rows.length + tcs.length := by
  induction tcs generalizing s with
  | nil => simp [createMany]
  | cons tc tcs ih =>
    rw [createMany_cons, ih]
    simp [create_task]
    omega

/-- Helper: create preserves the store invariant. -/
lemma wf_create (s : Store) (tc : TaskCreate) (hw : s.Wf) :
    (create_task tc s).2.Wf := by
  obtain ⟨hb, hn⟩ := hw
  refine ⟨?_, ?_⟩
  · intro t ht
    have ht' : t ∈ s.rows ++ [(⟨s.nextId, tc.title, tc.completed⟩ : Task)] := ht
    rcases List.mem_append.mp ht' with h | h
    · exact Nat.lt_succ_of_lt (hb t h)
    · have he : t = ⟨s.nextId, tc.title, tc.completed⟩ := by simpa using h
      rw [he]
      exact Nat.lt_succ_self _
  · show ((s.rows ++ [(⟨s.nextId, tc.title, tc.completed⟩ : Task)]).map Task.id).Nodup
    rw [List.map_append, List.nodup_append]
    refine ⟨hn, List.nodup_singleton _, ?_⟩
    intro a ha hmem
    have ha' : a < s.nextId := by
      rcases List.mem_map.mp ha with ⟨t, htmem, rfl⟩
      exact hb t htmem
    have he : a = s.nextId := by simpa using hmem
    omega

/-- Helper: creating any number of tasks preserves the store invariant. -/
lemma wf_createMany (tcs : List TaskCreate) (s : Store) (hw : s.Wf) :
    (createMany tcs s).Wf := by
  induction tcs generalizing s with
  | nil => exact hw
  | cons tc tcs ih => exact ih _ (wf_create s tc hw)

/-- Helper: removing one present id from a duplicate-free row list drops
exactly one row. -/
lemma length_filter_ne_of_mem (l : List Task) (hn : (l.map Task.id).Nodup)
    (t : Task) (ht : t ∈ l) :
    (l.filter (fun u => u.id != t.id)).length = l.length - 1 := by
  induction l with
  | nil => cases ht
  | cons x xs ih =>
    have hn' : (xs.map Task.id).Nodup := by
      rw [List.map_cons] at hn
      exact hn.of_cons
    by_cases hx : x.id = t.id
    · have hxf : (x.id != t.id) = false := by simp [hx]
      rw [filter_cons_neg (fun u => u.id != t.id) _ _ hxf]
      have hnone : ∀ u ∈ xs, (u.id != t.id) = true := by
        intro u hu
        rw [List.map_cons] at hn
        have hninx : x.id ∉ xs.map Task.id := (List.nodup_cons.mp hn).1
        have : u.id ≠ t.id := by
          intro hcon
          exact hninx (hx ▸ hcon ▸ List.mem_map_of_mem Task.id hu)
        simpa using this
      rw [List.filter_eq_self.mpr hnone]
      rfl
    · have hxt : (x.id != t.id) = true := by simp [hx]
      have htx : t ∈ xs := by
        rcases List.mem_cons.mp ht with he | hm
        · exact absurd (by rw [he]) hx
        · exact hm
      have hpos : 0 < xs.length := List.length_pos_of_mem htx
      rw [filter_cons_pos (fun u => u.id != t.id) _ _ hxt]
      have := ih hn' htx
      simp only [List.length_cons, this]
      omega

/-- C7: after creating N tasks starting from the empty store, deleting any
one of them leaves list() returning exactly N-1 tasks, none carrying the
deleted id; and list() on the empty store is the empty sequence. -/
theorem C7_list_after_delete (tcs : List TaskCreate) (t : Task)
    (ht : t ∈ (createMany tcs emptyStore).rows) :
    read_tasks emptyStore = [] ∧
    (read_tasks (delete_task t.id (createMany tcs emptyStore)).2).length =
      tcs.length - 1 ∧
    ∀ u ∈ read_tasks (delete_task t.id (createMany tcs emptyStore)).2,
      u.id ≠ t.id := by
  have hw := wf_createMany tcs emptyStore (by decide)
  have hlen := createMany_rows_length tcs emptyStore
  obtain ⟨t0, h⟩ : ∃ t0, (createMany tcs emptyStore).get t.id = some t0 := by
    cases hc : (createMany tcs emptyStore).get t.id with
    | none => exact absurd (by simp) (List.find?_eq_none.mp hc t ht)
    | some t0 => exact ⟨t0, rfl⟩
  have hrows : (delete_task t.id (createMany tcs emptyStore)).2.rows =
      (createMany tcs emptyStore).rows.filter (fun u => u.id != t.id) := by
    unfold delete_task
    rw [h]
  refine ⟨rfl, ?_, ?_⟩
  · rw [read_tasks, List.length_map, hrows,
      length_filter_ne_of_mem _ hw.2 t ht, hlen]
    simp [emptyStore]
  · intro u hu
    rw [read_tasks, hrows] at hu
    rcases List.mem_map.mp hu with ⟨v, hv, rfl⟩
    have hq := List.of_mem_filter hv
    simpa [Task.toOut] using hq

/-- C7 witness: create "A" and "B", delete id 1; one task remains, id 2. -/
theorem C7_list_after_delete_witness :
    (⟨1, "A", false⟩ : Task) ∈
      (createMany [⟨"A", false⟩, ⟨"B", false⟩] emptyStore).rows ∧
    (read_tasks
        (delete_task 1 (createMany [⟨"A", false⟩, ⟨"B", false⟩] emptyStore)).2).length
      = 1 ∧
    read_tasks
        (delete_task 1 (createMany [⟨"A", false⟩, ⟨"B", false⟩] emptyStore)).2
      = [⟨2, "B", false⟩] := by
  have h := C7_list_after_delete [⟨"A", false⟩, ⟨"B", false⟩]
    ⟨1, "A", false⟩ (by decide)
  exact ⟨by decide, h.2.1, by decide⟩

/-- C8: the suggestion endpoint leaves the Task store unchanged on every
path, and on any failure of the external call it responds 500 with a detail
string containing the underlying failure's description. -/
theorem C8_suggestion_failure (chat : String → Except String String)
    (title : String) (db : Store) :
    (suggest_task_completion chat title db).2 = db ∧
    ∀ e, chat (suggestPrompt title) = Except.error e →
      (suggest_task_completion chat title db).1 =
        Resp.err 500 ("Ollama error: " ++ e) ∧
      ∃ pre post, "Ollama error: " ++ e = pre ++ e ++ post := by
  constructor
  · cases h : chat (suggestPrompt title) <;>
      simp [suggest_task_completion, h]
  · intro e he
    exact ⟨by simp [suggest_task_completion, he],
      ⟨"Ollama error: ", "", by simp⟩⟩

/-- C8 witness: an unreachable model server yields 500 with the failure
description in the detail, and the store is unchanged. -/
theorem C8_suggestion_failure_witness :
    chatDown (suggestPrompt "Buy milk") = Except.error "connection refused" ∧
    (suggest_task_completion chatDown "Buy milk" emptyStore).2 = emptyStore ∧
    (suggest_task_completion chatDown "Buy milk" emptyStore).1 =
      Resp.err 500 ("Ollama error: " ++ "connection refused") := by
  have h := C8_suggestion_failure chatDown "Buy milk" emptyStore
  exact ⟨rfl, h.1, (h.2 "connection refused" rfl).1⟩

/-- C10: create-validation reads only the title and completed fields of the
body, ignoring every other field (such as an "id" field), and the created
Task always carries the system-generated id — the store's next primary-key
value — never a value from the body. -/
theorem C10_extra_fields_ignored (b1 b2 : Body)
    (ht : b1.lookup "title" = b2.lookup "title")
    (hc : b1.lookup "completed" = b2.lookup "completed") :
    TaskCreate.validate b1 = TaskCreate.validate b2 ∧
    ∀ tc : TaskCreate, ∀ s : Store, (create_task tc s).1.id = s.nextId := by
  refine ⟨?_, fun tc s => rfl⟩
  unfold TaskCreate.validate
  rw [ht, hc]

/-- C10 witness: a body carrying an extra "id" field validates exactly like
the same body without it, and the created id is the generated one. -/
theorem C10_extra_fields_ignored_witness :
    ([("title", JValue.str "A"), ("id", JValue.num 99)] : Body).lookup "title" =
      ([("title", JValue.str "A")] : Body).lookup "title" ∧
    ([("title", JValue.str "A"), ("id", JValue.num 99)] : Body).lookup "completed" =
      ([("title", JValue.str "A")] : Body).lookup "completed" ∧
    TaskCreate.validate [("title", JValue.str "A"), ("id", JValue.num 99)] =
      TaskCreate.validate [("title", JValue.str "A")] ∧
    (create_task ⟨"A", false⟩ emptyStore).1.id = 1 := by
  have h := C10_extra_fields_ignored
    [("title", JValue.str "A"), ("id", JValue.num 99)]
    [("title", JValue.str "A")] (by decide) (by decide)
  exact ⟨by decide, by decide, h.1, h.2 ⟨"A", false⟩ emptyStore⟩

end TaskApi
